import Mathlib

/-
Verification of the django-postal-codes ETL core: a shallow embedding of the
geospatial hierarchy builder and postal-code resolver
(django_postal_codes/models.py, data_pipelines/base.py and
data_pipelines/portugal/__main__.py), with theorems about the fallback
candidate search, the containment lookup, the skip-and-log policy, the
geocoding glue, the derived full_address, the multipolygon invariant, the
orchestrator stages and the cross-country frame effects.

External capabilities (the GEOS/shapely geometry kernel, the pgeocode data
source, the spatial database backend) are parameters of the embedded
functions; everything the repository's own code does is transcribed.
-/

namespace DjangoPostalCodes

/-- A geographic point (longitude, latitude) as built by
`django.contrib.gis.geos.Point`. Coordinates are integers: no claim depends
on coordinate arithmetic, only on equality and on the external containment
test. -/
structure Point where
  lon : Int
  lat : Int
deriving DecidableEq

/-- The coordinates of one simple polygon, recorded as the list of points the
external geometry kernel reports as intersecting it. -/
abbrev SimplePoly := List Point

/-- Shape of a GEOS/shapely geometry, as classified by its `geom_type`
string. The union of polygons is a Polygon or a MultiPolygon; shapely
returns an (empty) GeometryCollection for an empty union. -/
inductive Geom where
  | polygon (p : SimplePoly)
  | multiPolygon (ps : List SimplePoly)
  | geometryCollection (ps : List SimplePoly)
deriving DecidableEq

/-- The `geom_type` attribute of a geometry. -/
def Geom.geom_type : Geom → String
  | .polygon _ => "Polygon"
  | .multiPolygon _ => "MultiPolygon"
  | .geometryCollection _ => "GeometryCollection"

/-- The Python exceptions the embedded code can raise. -/
inductive PyError where
  | runtimeError (msg : String)
  | typeError
  | doesNotExist
  | multipleObjectsReturned
deriving DecidableEq

/-- One pass of Python's `set(...)` de-duplication: keep the first occurrence
of each element, remembering the elements already seen. -/
def dedupFirstAux [DecidableEq α] (seen : List α) : List α → List α
  | [] => []
  | x :: xs => if x ∈ seen then dedupFirstAux seen xs else x :: dedupFirstAux (x :: seen) xs

/-- Python's `set(...)` over a list of pairs, read back as a list: each
element kept once. CPython's set iteration order is unspecified; the
first-occurrence order is one faithful choice, and no proved property
depends on it. -/
def dedupFirst [DecidableEq α] (l : List α) : List α := dedupFirstAux [] l

/-- Insertion step of a stable ascending sort by a natural-number key. -/
def insertByKey (key : α → Nat) (x : α) : List α → List α
  | [] => [x]
  | y :: ys => if key x ≤ key y then x :: y :: ys else y :: insertByKey key x ys

/-- Stable ascending sort by a natural-number key, modelling Python's
`sorted(..., key=...)`. -/
def sortByKey (key : α → Nat) : List α → List α
  | [] => []
  | x :: xs => insertByKey key x (sortByKey key xs)

theorem mem_dedupFirstAux [DecidableEq α] (l : List α) :
    ∀ (seen : List α) (a : α), a ∈ dedupFirstAux seen l ↔ a ∈ l ∧ a ∉ seen := by
  induction l with
  | nil => intro seen a; simp [dedupFirstAux]
  | cons x xs ih =>
    intro seen a
    by_cases hx : x ∈ seen
    · simp only [dedupFirstAux, if_pos hx, ih, List.mem_cons]
      constructor
      · rintro ⟨ha, hs⟩; exact ⟨Or.inr ha, hs⟩
      · rintro ⟨ha | ha, hs⟩
        · exact absurd hx (ha ▸ hs)
        · exact ⟨ha, hs⟩
    · rw [dedupFirstAux, if_neg hx]
      constructor
      · intro h
        rcases List.mem_cons.mp h with rfl | h
        · exact ⟨List.mem_cons_self a xs, hx⟩
        · obtain ⟨ha, hs⟩ := (ih (x :: seen) a).mp h
          exact ⟨List.mem_cons_of_mem x ha,
            fun hm => hs (List.mem_cons_of_mem x hm)⟩
      · rintro ⟨h, hs⟩
        rcases List.mem_cons.mp h with rfl | ha
        · exact List.mem_cons_self a _
        · by_cases hax : a = x
          · exact hax ▸ List.mem_cons_self x _
          · refine List.mem_cons_of_mem x ((ih (x :: seen) a).mpr ⟨ha, ?_⟩)
            intro hm
            rcases List.mem_cons.mp hm with h1 | h1
            · exact hax h1
            · exact hs h1

theorem mem_dedupFirst [DecidableEq α] (l : List α) (a : α) :
    a ∈ dedupFirst l ↔ a ∈ l := by
  simp [dedupFirst, mem_dedupFirstAux]

theorem nodup_dedupFirstAux [DecidableEq α] (l : List α) :
    ∀ seen : List α, (dedupFirstAux seen l).Nodup := by
  induction l with
  | nil => intro seen; simp [dedupFirstAux]
  | cons x xs ih =>
    intro seen
    by_cases hx : x ∈ seen
    · simpa [dedupFirstAux, if_pos hx] using ih seen
    · rw [dedupFirstAux, if_neg hx]
      refine List.nodup_cons.mpr ⟨?_, ih (x :: seen)⟩
      intro hmem
      exact ((mem_dedupFirstAux xs (x :: seen) x).mp hmem).2 (List.mem_cons_self x seen)

theorem nodup_dedupFirst [DecidableEq α] (l : List α) : (dedupFirst l).Nodup :=
  nodup_dedupFirstAux l []

theorem insertByKey_perm (key : α → Nat) (x : α) (l : List α) :
    List.Perm (insertByKey key x l) (x :: l) := by
  induction l with
  | nil => simp [insertByKey]
  | cons y ys ih =>
    rw [insertByKey]
    by_cases h : key x ≤ key y
    · rw [if_pos h]
    · rw [if_neg h]
      exact List.Perm.trans (List.Perm.cons y ih) (List.Perm.swap x y ys)

theorem sortByKey_perm (key : α → Nat) (l : List α) :
    List.Perm (sortByKey key l) l := by
  induction l with
  | nil => simp [sortByKey]
  | cons x xs ih =>
    exact List.Perm.trans (insertByKey_perm key x (sortByKey key xs))
      (List.Perm.cons x ih)

theorem mem_sortByKey (key : α → Nat) (l : List α) (a : α) :
    a ∈ sortByKey key l ↔ a ∈ l :=
  (sortByKey_perm key l).mem_iff

theorem nodup_sortByKey (key : α → Nat) (l : List α) (h : l.Nodup) :
    (sortByKey key l).Nodup :=
  ((sortByKey_perm key l).nodup_iff).mpr h

theorem pairwise_insertByKey (key : α → Nat) (x : α) (l : List α)
    (h : l.Pairwise (fun a b => key a ≤ key b)) :
    (insertByKey key x l).Pairwise (fun a b => key a ≤ key b) := by
  induction l with
  | nil => simp [insertByKey]
  | cons y ys ih =>
    rw [insertByKey]
    rcases List.pairwise_cons.mp h with ⟨hy, hys⟩
    by_cases hxy : key x ≤ key y
    · rw [if_pos hxy]
      refine List.pairwise_cons.mpr ⟨?_, h⟩
      intro b hb
      rcases List.mem_cons.mp hb with rfl | hb
      · exact hxy
      · exact le_trans hxy (hy b hb)
    · rw [if_neg hxy]
      refine List.pairwise_cons.mpr ⟨?_, ih hys⟩
      intro b hb
      have hb2 := (insertByKey_perm key x ys).mem_iff.mp hb
      rcases List.mem_cons.mp hb2 with rfl | h1
      · exact le_of_not_le hxy
      · exact hy b h1

theorem pairwise_sortByKey (key : α → Nat) (l : List α) :
    (sortByKey key l).Pairwise (fun a b => key a ≤ key b) := by
  induction l with
  | nil => simp [sortByKey]
  | cons x xs ih => exact pairwise_insertByKey key x (sortByKey key xs) ih

/-- One row of the raw postal-record sheet (codigos_postais.csv as loaded
into `postal_codes_sheet`, NaN replaced by None). Numeric columns are the
pandas integers; the six address components are nullable strings. -/
structure RawRow where
  num_cod_postal : Int
  ext_cod_postal : Int
  desig_postal : String
  cod_distrito : Int
  cod_concelho : Int
  nome_localidade : String
  tipo_arteria : Option String
  prep1 : Option String
  titulo_arteria : Option String
  prep2 : Option String
  nome_arteria : Option String
  local_arteria : Option String
deriving DecidableEq

/-- Lines 135-157 of portugal/__main__.py: the fallback `options` of
`process_postal_code_row` — the (num_cod_postal, ext_cod_postal) pairs of
the sheet rows sharing the failing row's desig_postal, cod_distrito and
cod_concelho, de-duplicated as a set, with the pair of the row itself
removed, sorted by absolute numeric distance between extensions. -/
def fallback_options (sheet : List RawRow) (row : RawRow) : List (Int × Int) :=
  let matching := sheet.filter (fun r =>
    r.desig_postal == row.desig_postal &&
    r.cod_distrito == row.cod_distrito &&
    r.cod_concelho == row.cod_concelho)
  let options := matching.map (fun r => (r.num_cod_postal, r.ext_cod_postal))
  sortByKey (fun t => (row.ext_cod_postal - t.2).natAbs)
    ((dedupFirst options).filter
      (fun el => el != (row.num_cod_postal, row.ext_cod_postal)))

/-- The candidate pairs in the order the loop at lines 160-162 walks them:
the row's own pair first, then the fallback options. -/
def tried_pairs (sheet : List RawRow) (row : RawRow) : List (Int × Int) :=
  (row.num_cod_postal, row.ext_cod_postal) :: fallback_options sheet row

/-- A stored `Locality` row, carrying the names reachable through its
county → district → country foreign-key chain (models.py: Locality.county,
County.district, District.country) and its nullable multipolygon field. -/
structure LocalityRow where
  locid : Nat
  name : String
  county_name : String
  district_name : String
  country_name : String
  polygon : Option Geom
deriving DecidableEq

/-- models.Locality.save (lines 152-159): a bare Polygon value is wrapped
into a MultiPolygon before persisting. -/
def locality_save (l : LocalityRow) : LocalityRow :=
  match l.polygon with
  | some (.polygon p) => { l with polygon := some (.multiPolygon [p]) }
  | _ => l

/-- The rows of the locality table whose polygon intersects the point, in
table order: the candidate set of
`Locality.objects.get(polygon__intersects=point)`. A NULL polygon matches
nothing. `intersects` is the spatial backend's test, external to the code. -/
def localities_intersecting (intersects : Geom → Point → Bool)
    (db : List LocalityRow) (point : Point) : List LocalityRow :=
  db.filter (fun l =>
    match l.polygon with
    | some g => intersects g point
    | none => false)

/-- Line 168: `Locality.objects.get(polygon__intersects=point)` — the
single-object lookup over the whole locality table, raising DoesNotExist on
zero matches and MultipleObjectsReturned on several. -/
def locality_get_intersects (intersects : Geom → Point → Bool)
    (db : List LocalityRow) (point : Point) : Except PyError LocalityRow :=
  match localities_intersecting intersects db point with
  | [] => .error .doesNotExist
  | [l] => .ok l
  | _ :: _ :: _ => .error .multipleObjectsReturned

/-- A stored `PostalCode` row (models.py lines 171-249); `locality` is its
foreign key, embedded with the names its chain resolves to. -/
structure PostalCodeRow where
  locality : LocalityRow
  artery_type : Option String
  prep1 : Option String
  artery_title : Option String
  prep2 : Option String
  artery_name : Option String
  artery_local : Option String
  postal_code : Int
  postal_code_extension : Int
  postal_designation : Option String
  full_address : String
deriving DecidableEq

/-- models.PostalCode.get_full_address (lines 257-280): joins the non-None
address components with single spaces, appends the
"locality, county, district, country" suffix, and omits the locality name
when it equals the county name. -/
def get_full_address (pc : PostalCodeRow) : String :=
  let full_name := String.intercalate " "
    ([pc.artery_type, pc.prep1, pc.artery_title, pc.prep2,
      pc.artery_name, pc.artery_local].filterMap id)
  let suffix := pc.locality.county_name ++ ", " ++ pc.locality.district_name
    ++ ", " ++ pc.locality.country_name
  let suffix := if pc.locality.name != pc.locality.county_name
    then pc.locality.name ++ ", " ++ suffix else suffix
  if full_name != "" then full_name ++ ", " ++ suffix else suffix

/-- models.PostalCode.save (lines 282-289): recomputes full_address from the
other fields, then persists. -/
def postal_code_save (pc : PostalCodeRow) : PostalCodeRow :=
  { pc with full_address := get_full_address pc }

/-- Lines 187-198: `PostalCode.objects.create(...)` — builds the row from
the raw sheet row and the resolved locality, and runs PostalCode.save. -/
def create_postal_code (row : RawRow) (l : LocalityRow) : PostalCodeRow :=
  postal_code_save
    { locality := l
      artery_type := row.tipo_arteria
      prep1 := row.prep1
      artery_title := row.titulo_arteria
      prep2 := row.prep2
      artery_name := row.nome_arteria
      artery_local := row.local_arteria
      postal_code := row.num_cod_postal
      postal_code_extension := row.ext_cod_postal
      postal_designation := some row.desig_postal
      full_address := "" }

/-- The warning emitted at lines 176-183 when no locality was found,
carrying the fields passed to logging.warning: the row's nome_localidade,
the last value of the `point` variable, and the row itself. -/
structure WarnEntry where
  msg : String
  nome_localidade : String
  point : Option Point
  row : RawRow
deriving DecidableEq

/-- What processing one raw row leaves behind: the created PostalCode row,
if any, and the warnings logged. -/
structure ProcessOutcome where
  written : Option PostalCodeRow
  logs : List WarnEntry
deriving DecidableEq

/-- The candidate loop at lines 159-173: walk the tried pairs in order; a
pair without a coordinate is skipped; for a coordinate, run the
single-object intersects lookup, stopping on a match, continuing on
DoesNotExist and propagating any other ORM error. The second component
tracks the Python `point` variable, reassigned on every iteration and read
by the warning afterwards. -/
def try_candidates (coords : Int → Int → Option Point)
    (intersects : Geom → Point → Bool) (db : List LocalityRow) :
    List (Int × Int) → Option Point →
    Except PyError (Option LocalityRow × Option Point)
  | [], last => .ok (none, last)
  | (pc, ext) :: rest, _ =>
    match coords pc ext with
    | none => try_candidates coords intersects db rest none
    | some p =>
      match locality_get_intersects intersects db p with
      | .ok l => .ok (some l, some p)
      | .error .doesNotExist => try_candidates coords intersects db rest (some p)
      | .error e => .error e

/-- PortugalStrategy.process_postal_code_row (lines 128-198). `coords`
stands for self.coordinates_from_postal_code — the external geocoding
capability, whose actual glue code is embedded separately as
`coordinates_from_postal_code` below — and `intersects` for the spatial
backend's intersects test. -/
def process_postal_code_row (sheet : List RawRow)
    (coords : Int → Int → Option Point) (intersects : Geom → Point → Bool)
    (db : List LocalityRow) (row : RawRow) : Except PyError ProcessOutcome :=
  match try_candidates coords intersects db (tried_pairs sheet row) none with
  | .error e => .error e
  | .ok (some l, _) =>
    .ok { written := some (create_postal_code row l), logs := [] }
  | .ok (none, last) =>
    .ok { written := none
          logs := [{ msg := "No found locality for "
                     nome_localidade := row.nome_localidade
                     point := last
                     row := row }] }

/-- A Python value as far as base.py line 61 needs to distinguish: the
scalar floats a pgeocode row holds (carrying their NaN flag and value), or
a two-element tuple, the only shape the two-target unpacking accepts. -/
inductive PyVal where
  | float (isNan : Bool) (v : Int)
  | pair (a b : PyVal)
deriving DecidableEq

/-- The row `self.nominatim.query_postal_code(...)` returns, restricted to
the two fields the code reads. -/
structure GeoResponse where
  latitude : PyVal
  longitude : PyVal
deriving DecidableEq

/-- Python str.zfill: left-pad with zeros to the given width. -/
def zfill (width : Nat) (s : String) : String :=
  if s.length < width then String.mk (List.replicate (width - s.length) '0') ++ s
  else s

/-- Two-target tuple unpacking `a, b = v`: succeeds only on a two-element
tuple; a scalar float is not iterable and raises TypeError. -/
def unpack2 : PyVal → Except PyError (PyVal × PyVal)
  | .pair a b => .ok (a, b)
  | .float _ _ => .error .typeError

/-- np.isnan on a value: defined on scalar floats, TypeError otherwise. -/
def np_isnan : PyVal → Except PyError Bool
  | .float isNan _ => .ok isNan
  | .pair _ _ => .error .typeError

/-- `Point(longitude, latitude)`: builds a point from two scalar floats. -/
def point_from : PyVal → PyVal → Except PyError Point
  | .float _ lonv, .float _ latv => .ok { lon := lonv, lat := latv }
  | _, _ => .error .typeError

/-- base.CountryStrategy.coordinates_from_postal_code (base.py lines
49-66), transcribed statement by statement. The Python source line

  latitude = response["latitude"], longitude = response["longitude"]

is one chained assignment,
`latitude = (response["latitude"], longitude) = response["longitude"]`:
the right-hand side `response["longitude"]` is first bound to `latitude`
and then tuple-unpacked into the two targets. -/
def coordinates_from_postal_code (query : String → GeoResponse)
    (postal_code : Int) (postal_code_extension : Int) :
    Except PyError (Option Point) := do
  let full_postal_str :=
    toString postal_code ++ "-" ++ zfill 3 (toString postal_code_extension)
  let response := query full_postal_str
  let latitude := response.longitude
  let (_, longitude) ← unpack2 response.longitude
  let latIsNan ← np_isnan latitude
  if latIsNan then
    return none
  else
    let lonIsNan ← np_isnan longitude
    if lonIsNan then
      return none
    else
      return some (← point_from longitude latitude)

/-- models.compute_polygon_union (models.py lines 14-28): converts to
shapely, unions with the external `unary_union` (a parameter here), wraps
a Polygon result as a one-element MultiPolygon, and returns it as GeoJSON
(the wkt and GeoJSON conversions preserve the geometry's shape). -/
def compute_polygon_union (unary_union : List Geom → Geom)
    (polygons : List Geom) : Geom :=
  let merged := unary_union polygons
  match merged with
  | .polygon p => .multiPolygon [p]
  | m => m

/-- A feature of the loaded CAOP geometry files: its "Dicofre" region code
and its geometry (already reprojected; the transform at line 220 preserves
the geometry's shape). -/
structure Feature where
  dicofre : String
  geom : Geom
deriving DecidableEq

/-- PortugalStrategy.find_poly (lines 200-232): collect the geometries of
the features carrying the requested Dicofre code, raise RuntimeError when
there are none, union them with the external `unary_union`, wrap a
non-MultiPolygon result with `MultiPolygon(fromstr(str(poly)))` — whose
constructor accepts only a Polygon, raising TypeError otherwise — and
assert the result is a MultiPolygon. -/
def find_poly (features : List Feature) (unary_union : List Geom → Geom)
    (dicofre : String) : Except PyError Geom :=
  let geometries :=
    (features.filter (fun f => f.dicofre == dicofre)).map Feature.geom
  if geometries.isEmpty then
    .error (.runtimeError
      ("[PORTUGAL] Could not find geometries with dicofre " ++ dicofre))
  else
    match unary_union geometries with
    | .multiPolygon ps => .ok (.multiPolygon ps)
    | .polygon p => .ok (.multiPolygon [p])
    | .geometryCollection _ => .error .typeError

/-- A District row: its name and the country it belongs to (models.py
District.country, on_delete=CASCADE). -/
structure DistrictT where
  name : String
  country : String
deriving DecidableEq

/-- A County row with the chain of names above it. -/
structure CountyT where
  name : String
  district : String
  country : String
deriving DecidableEq

/-- A Locality row with the chain of names above it and its nullable
multipolygon. -/
structure LocalityT where
  name : String
  county : String
  district : String
  country : String
  polygon : Option Geom
deriving DecidableEq

/-- A PostalCode row reduced to its code and the country its
locality → county → district chain resolves to. -/
structure PostalT where
  postal_code : Int
  locality : String
  country : String
deriving DecidableEq

/-- The five persisted tables, each row tagged with the country its
foreign-key chain resolves to, so that cascading deletes can be stated. -/
structure Tables where
  countries : List String
  districts : List DistrictT
  counties : List CountyT
  localities : List LocalityT
  postal_codes : List PostalT
deriving DecidableEq

/-- base.CountryStrategy.populate_country (base.py lines 80-88):
`Country.objects.filter(name=...).delete()` removes the same-named country
row and, through the CASCADE foreign keys, every descendant row of that
country; then the country row is recreated. -/
def populate_country (country_name : String) (db : Tables) : Tables :=
  { countries := db.countries.filter (fun c => c != country_name)
      ++ [country_name]
    districts := db.districts.filter (fun d => d.country != country_name)
    counties := db.counties.filter (fun c => c.country != country_name)
    localities := db.localities.filter (fun l => l.country != country_name)
    postal_codes := db.postal_codes.filter (fun p => p.country != country_name) }

/-- PortugalStrategy.populate_districts (lines 57-71):
`District.objects.all().delete()` removes EVERY district row — of every
country — and cascades over every county, locality and postal-code row;
then Portugal's districts are bulk-created. -/
def populate_districts (district_names : List String) (db : Tables) : Tables :=
  { db with
    districts := district_names.map (fun n => { name := n, country := "Portugal" })
    counties := []
    localities := []
    postal_codes := [] }

/-- Lines 119-120 of create_postal_codes:
`PostalCode.objects.all()._raw_delete(...)` — every postal-code row of every
country is removed before Portugal's rows are created. -/
def delete_all_postal_codes (db : Tables) : Tables :=
  { db with postal_codes := [] }

/-- One row of the CAOP reference sheet, restricted to the four columns
populate_localities reads; a missing cell is None. -/
structure CaopRow where
  distrito : Option String
  freguesia : Option String
  concelho : Option String
  dicofre : Option String
deriving DecidableEq

/-- The `.drop_duplicates().dropna().values` preprocessing of
populate_localities (lines 103-108): duplicated rows collapse to their
first occurrence, then rows with a missing cell are dropped. -/
def caop_clean (rows : List CaopRow) : List (String × String × String × String) :=
  (dedupFirst rows).filterMap (fun r =>
    match r.distrito, r.freguesia, r.concelho, r.dicofre with
    | some d, some f, some c, some di => some (d, f, c, di)
    | _, _, _, _ => none)

/-- Line 97: `County.objects.get(name=..., district__name=...)`. -/
def county_get (db : Tables) (county_name district_name : String) :
    Except PyError CountyT :=
  match db.counties.filter (fun c =>
      c.name == county_name && c.district == district_name) with
  | [] => .error .doesNotExist
  | [c] => .ok c
  | _ :: _ :: _ => .error .multipleObjectsReturned

/-- One element of the locality list comprehension (lines 94-109): the
county lookup runs first, then find_poly; either failure propagates. -/
def build_locality (db : Tables) (features : List Feature)
    (unary_union : List Geom → Geom) :
    String × String × String × String → Except PyError LocalityT
  | (district_name, locality_name, county_name, dicofre) =>
    match county_get db county_name district_name with
    | .error e => .error e
    | .ok county =>
      match find_poly features unary_union dicofre with
      | .error e => .error e
      | .ok poly =>
        .ok { name := locality_name
              county := county.name
              district := district_name
              country := county.country
              polygon := some poly }

/-- The whole list comprehension: localities built left to right, the first
exception aborting the construction. -/
def build_localities (db : Tables) (features : List Feature)
    (unary_union : List Geom → Geom) :
    List (String × String × String × String) → Except PyError (List LocalityT)
  | [] => .ok []
  | t :: ts =>
    match build_locality db features unary_union t with
    | .error e => .error e
    | .ok l =>
      match build_localities db features unary_union ts with
      | .error e => .error e
      | .ok rest => .ok (l :: rest)

/-- PortugalStrategy.populate_localities (lines 89-110): build the locality
objects from the cleaned CAOP rows (any exception propagates and aborts the
step with the tables unchanged) and bulk-create them. bulk_create appends
rows without calling Locality.save. -/
def populate_localities (rows : List CaopRow) (features : List Feature)
    (unary_union : List Geom → Geom) (db : Tables) : Except PyError Tables :=
  match build_localities db features unary_union (caop_clean rows) with
  | .error e => .error e
  | .ok ls => .ok { db with localities := db.localities ++ ls }

/-- The methods base.CountryStrategy marks abstract (base.py lines 29-43
and 90-106): the abstract properties country_code and country_name and the
abstract methods populate_districts, populate_counties and
populate_postal_codes. -/
def country_strategy_abstract_methods : List String :=
  ["country_code", "country_name", "populate_districts", "populate_counties",
   "populate_postal_codes"]

/-- The methods and properties PortugalStrategy concretely defines
(portugal/__main__.py). -/
def portugal_strategy_methods : List String :=
  ["country_name", "country_code", "populate_districts", "populate_counties",
   "populate_localities", "create_postal_codes", "process_postal_code_row",
   "find_poly"]

/-- Python's ABC machinery: a subclass can be instantiated exactly when
every abstract method of its base has a concrete definition. -/
def portugal_strategy_instantiable : Bool :=
  country_strategy_abstract_methods.all
    (fun m => portugal_strategy_methods.contains m)

/-- The method calls CountryStrategy.execute makes, in order, inside its
single transaction.atomic block (base.py lines 74-78). -/
def execute_called_methods : List String :=
  ["populate_country", "populate_districts", "populate_counties",
   "populate_postal_codes"]

/-- Row constructor for concrete instances: a raw sheet row with the given
codes and designation and no address components. -/
def mkRow (base ext : Int) (desig : String) (dd cc : Int) : RawRow :=
  { num_cod_postal := base
    ext_cod_postal := ext
    desig_postal := desig
    cod_distrito := dd
    cod_concelho := cc
    nome_localidade := "Estarreja"
    tipo_arteria := none
    prep1 := none
    titulo_arteria := none
    prep2 := none
    nome_arteria := none
    local_arteria := none }

/-- A concrete executable containment test for the closed instances: a point
intersects a geometry when it is listed among its coordinates. -/
def memIntersects : Geom → Point → Bool
  | .polygon ps, p => ps.contains p
  | .multiPolygon pss, p => pss.any (fun ps => ps.contains p)
  | .geometryCollection pss, p => pss.any (fun ps => ps.contains p)

/-- The failing record of the spec's worked fallback example: extension 007. -/
def c1_row : RawRow := mkRow 4000 7 "ALPHA" 1 2

/-- A raw sheet around `c1_row`: same-designation candidates with extensions
012, 050 and 003 (012 duplicated, to exercise the set), and one row with a
different designation. -/
def c1_sheet : List RawRow :=
  [c1_row, mkRow 4000 12 "ALPHA" 1 2, mkRow 4000 50 "ALPHA" 1 2,
   mkRow 4000 3 "ALPHA" 1 2, mkRow 4000 12 "ALPHA" 1 2,
   mkRow 4100 9 "BETA" 1 2]

/-- CLAIM C1. For every raw postal record, the fallback candidate set is
exactly the distinct (base, extension) pairs of the sheet rows sharing the
record's postal designation, district code and county code, with the pair
already tried excluded, listed without duplicates in ascending order of the
absolute numeric distance between extensions; and on the spec's worked
example (failing extension 007, candidates 012, 050, 003) the pairs are
tried primary first, then 003, 012, 050. -/
theorem claim_C1_fallback_candidates :
    (∀ (sheet : List RawRow) (row : RawRow) (pr : Int × Int),
      pr ∈ fallback_options sheet row ↔
        ((∃ r ∈ sheet, r.desig_postal = row.desig_postal ∧
            r.cod_distrito = row.cod_distrito ∧
            r.cod_concelho = row.cod_concelho ∧
            (r.num_cod_postal, r.ext_cod_postal) = pr) ∧
          pr ≠ (row.num_cod_postal, row.ext_cod_postal)))
    ∧ (∀ (sheet : List RawRow) (row : RawRow),
        (fallback_options sheet row).Nodup)
    ∧ (∀ (sheet : List RawRow) (row : RawRow),
        (fallback_options sheet row).Pairwise (fun a b =>
          (row.ext_cod_postal - a.2).natAbs ≤ (row.ext_cod_postal - b.2).natAbs))
    ∧ tried_pairs c1_sheet c1_row = [(4000, 7), (4000, 3), (4000, 12), (4000, 50)] := by
  refine ⟨?_, ?_, ?_, by decide⟩
  · intro sheet row pr
    simp only [fallback_options, mem_sortByKey, List.mem_filter, mem_dedupFirst,
      List.mem_map, Bool.and_eq_true, beq_iff_eq, bne_iff_ne, ne_eq]
    aesop
  · intro sheet row
    exact nodup_sortByKey _ _ (List.Nodup.filter _ (nodup_dedupFirst _))
  · intro sheet row
    exact pairwise_sortByKey _ _

/-- Concrete instance of claim C1's candidate-set characterization: the
closest candidate (4000, 003) is among the fallback options of the example. -/
theorem claim_C1_witness :
    ((4000 : Int), (3 : Int)) ∈ fallback_options c1_sheet c1_row :=
  (claim_C1_fallback_candidates.1 c1_sheet c1_row (4000, 3)).mpr (by decide)

/-- Modelled from the claim's words (C5), for comparison with the code's
get_full_address: the non-absent address components joined with single
spaces, followed by the "locality, county, district, country" suffix in
which the locality name is omitted exactly when it equals the county name. -/
def full_address_claim (pc : PostalCodeRow) : String :=
  let joined := String.intercalate " "
    ([pc.artery_type, pc.prep1, pc.artery_title, pc.prep2,
      pc.artery_name, pc.artery_local].filterMap id)
  let suffix :=
    if pc.locality.name = pc.locality.county_name then
      pc.locality.county_name ++ ", " ++ pc.locality.district_name
        ++ ", " ++ pc.locality.country_name
    else
      pc.locality.name ++ ", " ++ pc.locality.county_name ++ ", "
        ++ pc.locality.district_name ++ ", " ++ pc.locality.country_name
  if joined = "" then suffix else joined ++ ", " ++ suffix

/-- CLAIM C5. Saving a PostalCode recomputes full_address from the other
fields (so it cannot be set independently: the value previously stored in
full_address does not influence the saved row), and the computed value is
exactly the claim's formula: non-absent components joined by single spaces,
then the suffix, with the locality name omitted exactly when it equals the
county name. -/
theorem claim_C5_full_address :
    (∀ pc : PostalCodeRow,
      (postal_code_save pc).full_address = get_full_address pc)
    ∧ (∀ (pc : PostalCodeRow) (v : String),
        postal_code_save { pc with full_address := v } = postal_code_save pc)
    ∧ (∀ pc : PostalCodeRow, get_full_address pc = full_address_claim pc) := by
  refine ⟨fun pc => rfl, fun pc v => rfl, fun pc => ?_⟩
  by_cases h : pc.locality.name = pc.locality.county_name
  · simp [get_full_address, full_address_claim, h, String.append_assoc]
  · simp [get_full_address, full_address_claim, h, String.append_assoc]

/-- The point of the C2 instance. -/
def c2_point : Point := { lon := -9, lat := 39 }

/-- The single stored locality of the C2 instance: it lies in district
Lisboa, county Lisboa, and its polygon covers `c2_point`. -/
def c2_locality : LocalityRow :=
  { locid := 1
    name := "Alfama"
    county_name := "Lisboa"
    district_name := "Lisboa"
    country_name := "Portugal"
    polygon := some (.multiPolygon [[c2_point]]) }

/-- The locality table of the C2 instance. -/
def c2_db : List LocalityRow := [c2_locality]

/-- The raw record of the C2 instance: its declared district code 13 and
county code 6 correspond (in the national code tables) to Porto and
Gondomar — not to Lisboa, where the only stored locality lies. -/
def c2_row : RawRow := mkRow 4400 20 "GAMMA" 13 6

/-- The raw sheet of the C2 instance. -/
def c2_sheet : List RawRow := [c2_row]

/-- The geocoding source of the C2 instance: only the record's own pair has
a coordinate. -/
def c2_coords : Int → Int → Option Point := fun pc ext =>
  if pc == 4400 && ext == 20 then some c2_point else none

/-- Modelled from the spec's words (claim C2), for comparison: the primary
containment test restricted to the locality polygons of a given declared
district and county. -/
def locality_get_intersects_scoped (intersects : Geom → Point → Bool)
    (db : List LocalityRow) (district_name county_name : String)
    (point : Point) : Except PyError LocalityRow :=
  locality_get_intersects intersects
    (db.filter (fun l =>
      l.district_name == district_name && l.county_name == county_name))
    point

/-- CLAIM C2 refuted at a concrete input. The code's primary containment
test is `Locality.objects.get(polygon__intersects=point)` with no district
or county filter: a record whose declared district and county (Porto,
Gondomar) contain no locality at all is nevertheless bound to the Lisboa
locality whose polygon covers the point, while the scoped test of the claim
finds nothing. -/
theorem claim_C2_counterexample :
    locality_get_intersects_scoped memIntersects c2_db "Porto" "Gondomar"
        c2_point = .error .doesNotExist
    ∧ process_postal_code_row c2_sheet c2_coords memIntersects c2_db c2_row
      = .ok { written := some (create_postal_code c2_row c2_locality)
              logs := [] }
    ∧ c2_locality.district_name = "Lisboa" := by
  refine ⟨rfl, rfl, rfl⟩

/-- CLAIM C2 as amended: the primary attempt's containment test runs over
the whole locality table — whenever the record's own pair has a coordinate
and exactly one stored locality (of any district and county whatsoever)
intersects it, the record is bound to that locality. -/
theorem claim_C2_unscoped_lookup (sheet : List RawRow)
    (coords : Int → Int → Option Point) (intersects : Geom → Point → Bool)
    (db : List LocalityRow) (row : RawRow) (p : Point) (l : LocalityRow)
    (hp : coords row.num_cod_postal row.ext_cod_postal = some p)
    (hl : localities_intersecting intersects db p = [l]) :
    process_postal_code_row sheet coords intersects db row =
      .ok { written := some (create_postal_code row l), logs := [] } := by
  simp [process_postal_code_row, tried_pairs, try_candidates, hp,
    locality_get_intersects, hl]

/-- Concrete instance of the amended C2: the Lisboa locality is the unique
intersecting row, and the record with declared Porto/Gondomar codes is
bound to it. -/
theorem claim_C2_witness :
    process_postal_code_row c2_sheet c2_coords memIntersects c2_db c2_row
      = .ok { written := some (create_postal_code c2_row c2_locality)
              logs := [] } :=
  claim_C2_unscoped_lookup c2_sheet c2_coords memIntersects c2_db c2_row
    c2_point c2_locality (by decide) (by decide)

theorem try_candidates_no_match (coords : Int → Int → Option Point)
    (intersects : Geom → Point → Bool) (db : List LocalityRow) :
    ∀ (pairs : List (Int × Int)) (last : Option Point),
      (∀ q ∈ pairs, ∀ p, coords q.1 q.2 = some p →
        localities_intersecting intersects db p = []) →
      ∃ last', try_candidates coords intersects db pairs last
        = .ok (none, last') := by
  intro pairs
  induction pairs with
  | nil => intro last h; exact ⟨last, rfl⟩
  | cons q rest ih =>
    intro last h
    obtain ⟨pc, ext⟩ := q
    rw [try_candidates]
    cases hc : coords pc ext with
    | none =>
      exact ih none (fun q hq => h q (List.mem_cons_of_mem _ hq))
    | some p =>
      have hz := h (pc, ext) (List.mem_cons_self _ _) p hc
      dsimp only
      unfold locality_get_intersects
      rw [hz]
      exact ih (some p) (fun q hq => h q (List.mem_cons_of_mem _ hq))

/-- CLAIM C3. When no tried pair — the record's own nor any fallback
candidate — yields a coordinate contained in some locality polygon,
processing the record returns normally (no exception), writes no PostalCode
row, and logs exactly one warning carrying the record's identifying fields. -/
theorem claim_C3_unresolvable_skipped (sheet : List RawRow)
    (coords : Int → Int → Option Point) (intersects : Geom → Point → Bool)
    (db : List LocalityRow) (row : RawRow)
    (h : ∀ q ∈ tried_pairs sheet row, ∀ p, coords q.1 q.2 = some p →
      localities_intersecting intersects db p = []) :
    ∃ last, process_postal_code_row sheet coords intersects db row =
      .ok { written := none
            logs := [{ msg := "No found locality for "
                       nome_localidade := row.nome_localidade
                       point := last
                       row := row }] } := by
  obtain ⟨last', hl⟩ :=
    try_candidates_no_match coords intersects db (tried_pairs sheet row) none h
  exact ⟨last', by simp [process_postal_code_row, hl]⟩

/-- The raw record of the C3 instance. -/
def c3_row : RawRow := mkRow 3800 100 "DELTA" 1 3

/-- The raw sheet of the C3 instance: only the record itself, so there are
no fallback candidates. -/
def c3_sheet : List RawRow := [c3_row]

/-- The geocoding source of the C3 instance: the record's pair resolves to
a coordinate, but the locality table is empty, so nothing contains it. -/
def c3_coords : Int → Int → Option Point := fun pc ext =>
  if pc == 3800 && ext == 100 then some { lon := -8, lat := 40 } else none

/-- Concrete instance of claim C3: with an empty locality table the record
is dropped with one warning and no exception. -/
theorem claim_C3_witness :
    ∃ last, process_postal_code_row c3_sheet c3_coords memIntersects [] c3_row =
      .ok { written := none
            logs := [{ msg := "No found locality for "
                       nome_localidade := c3_row.nome_localidade
                       point := last
                       row := c3_row }] } :=
  claim_C3_unresolvable_skipped c3_sheet c3_coords memIntersects [] c3_row
    (fun _ _ _ _ => rfl)

theorem try_candidates_multi (coords : Int → Int → Option Point)
    (intersects : Geom → Point → Bool) (db : List LocalityRow) :
    ∀ (pre : List (Int × Int)) (pcext : Int × Int) (rest : List (Int × Int))
      (p : Point) (last : Option Point),
      (∀ q ∈ pre, ∀ pq, coords q.1 q.2 = some pq →
        localities_intersecting intersects db pq = []) →
      coords pcext.1 pcext.2 = some p →
      2 ≤ (localities_intersecting intersects db p).length →
      try_candidates coords intersects db (pre ++ pcext :: rest) last
        = .error .multipleObjectsReturned := by
  intro pre
  induction pre with
  | nil =>
    intro pcext rest p last hpre hc hlen
    obtain ⟨pc, ext⟩ := pcext
    rw [List.nil_append, try_candidates, hc]
    dsimp only
    unfold locality_get_intersects
    cases hz : localities_intersecting intersects db p with
    | nil => rw [hz] at hlen; simp at hlen
    | cons x t =>
      cases t with
      | nil => rw [hz] at hlen; simp at hlen
      | cons y t2 => rfl
  | cons q pre ih =>
    intro pcext rest p last hpre hc hlen
    obtain ⟨pc, ext⟩ := q
    rw [List.cons_append, try_candidates]
    cases hcq : coords pc ext with
    | none =>
      exact ih pcext rest p none
        (fun q hq => hpre q (List.mem_cons_of_mem _ hq)) hc hlen
    | some pq =>
      have hz := hpre (pc, ext) (List.mem_cons_self _ _) pq hcq
      dsimp only
      unfold locality_get_intersects
      rw [hz]
      exact ih pcext rest p (some pq)
        (fun q hq => hpre q (List.mem_cons_of_mem _ hq)) hc hlen

/-- CLAIM C10. When the candidate loop reaches a tried pair (primary or
fallback) whose coordinate intersects two or more locality polygons — every
earlier pair having either no coordinate or no intersecting locality — the
lookup raises MultipleObjectsReturned, which only the DoesNotExist handler
surrounds, so the exception escapes process_postal_code_row instead of the
record being bound or skipped. -/
theorem claim_C10_multi_containment_raises (sheet : List RawRow)
    (coords : Int → Int → Option Point) (intersects : Geom → Point → Bool)
    (db : List LocalityRow) (row : RawRow)
    (h : ∃ pre pcext rest p, tried_pairs sheet row = pre ++ pcext :: rest
      ∧ (∀ q ∈ pre, ∀ pq, coords q.1 q.2 = some pq →
          localities_intersecting intersects db pq = [])
      ∧ coords pcext.1 pcext.2 = some p
      ∧ 2 ≤ (localities_intersecting intersects db p).length) :
    process_postal_code_row sheet coords intersects db row
      = .error .multipleObjectsReturned := by
  obtain ⟨pre, pcext, rest, p, heq, hpre, hc, hlen⟩ := h
  have hmain := try_candidates_multi coords intersects db pre pcext rest p
    none hpre hc hlen
  rw [process_postal_code_row, heq, hmain]

/-- The point of the C10 instance, covered by two locality polygons. -/
def c10_point : Point := { lon := -8, lat := 41 }

/-- First of the two localities of the C10 instance. -/
def c10_loc1 : LocalityRow :=
  { locid := 1
    name := "Cedofeita"
    county_name := "Porto"
    district_name := "Porto"
    country_name := "Portugal"
    polygon := some (.multiPolygon [[c10_point]]) }

/-- Second of the two localities of the C10 instance: its polygon also
covers the point. -/
def c10_loc2 : LocalityRow :=
  { locid := 2
    name := "Paranhos"
    county_name := "Porto"
    district_name := "Porto"
    country_name := "Portugal"
    polygon := some (.multiPolygon [[c10_point]]) }

/-- The locality table of the C10 instance. -/
def c10_db : List LocalityRow := [c10_loc1, c10_loc2]

/-- The raw record of the C10 instance. -/
def c10_row : RawRow := mkRow 4200 1 "EPSILON" 13 10

/-- The raw sheet of the C10 instance. -/
def c10_sheet : List RawRow := [c10_row]

/-- The geocoding source of the C10 instance. -/
def c10_coords : Int → Int → Option Point := fun pc ext =>
  if pc == 4200 && ext == 1 then some c10_point else none

/-- Concrete instance of claim C10: the primary point lies in two locality
polygons and the whole record-processing call errors out. -/
theorem claim_C10_witness :
    process_postal_code_row c10_sheet c10_coords memIntersects c10_db c10_row
      = .error .multipleObjectsReturned :=
  claim_C10_multi_containment_raises c10_sheet c10_coords memIntersects
    c10_db c10_row
    ⟨[], (4200, 1), fallback_options c10_sheet c10_row, c10_point, rfl,
      fun q hq => absurd hq (List.not_mem_nil q), by decide, by decide⟩

theorem find_poly_multipolygon (features : List Feature)
    (unary_union : List Geom → Geom) (d : String) (g : Geom)
    (h : find_poly features unary_union d = .ok g) :
    g.geom_type = "MultiPolygon" := by
  simp only [find_poly] at h
  split at h
  · exact Except.noConfusion h
  · split at h
    · injection h with h2; subst h2; rfl
    · injection h with h2; subst h2; rfl
    · exact Except.noConfusion h

theorem build_localities_multipolygon (db : Tables) (features : List Feature)
    (unary_union : List Geom → Geom) :
    ∀ (ts : List (String × String × String × String)) (ls : List LocalityT),
      build_localities db features unary_union ts = .ok ls →
      ∀ l ∈ ls, ∀ g, l.polygon = some g → g.geom_type = "MultiPolygon" := by
  intro ts
  induction ts with
  | nil =>
    intro ls h l hl
    injection h with h2
    subst h2
    exact absurd hl (List.not_mem_nil l)
  | cons t ts ih =>
    intro ls h l hl g hg
    rw [build_localities] at h
    cases hb : build_locality db features unary_union t with
    | error e => rw [hb] at h; exact Except.noConfusion h
    | ok l0 =>
      rw [hb] at h
      cases hr : build_localities db features unary_union ts with
      | error e => rw [hr] at h; exact Except.noConfusion h
      | ok rest =>
        rw [hr] at h
        injection h with h2
        subst h2
        rcases List.mem_cons.mp hl with rfl | hmem
        · obtain ⟨d0, f0, c0, di0⟩ := t
          rw [build_locality] at hb
          cases hcg : county_get db c0 d0 with
          | error e => rw [hcg] at hb; exact Except.noConfusion hb
          | ok county =>
            rw [hcg] at hb
            cases hfp : find_poly features unary_union di0 with
            | error e => rw [hfp] at hb; exact Except.noConfusion hb
            | ok poly =>
              rw [hfp] at hb
              injection hb with hb2
              subst hb2
              simp only at hg
              injection hg with hg2
              subst hg2
              exact find_poly_multipolygon features unary_union di0 _ hfp
        · exact ih rest hr l hmem g hg

/-- CLAIM C6. Polygons produced by the system are multipolygon-shaped: the
aggregation wraps a single-polygon union result into a one-element
multipolygon (and passes a multipolygon union result through); find_poly
only ever succeeds with a MultiPolygon; every locality populate_localities
adds carries, when present, a MultiPolygon; and Locality.save normalizes a
bare Polygon value into a one-element MultiPolygon. -/
theorem claim_C6_multipolygon_invariant :
    (∀ (unary_union : List Geom → Geom) (polygons : List Geom) (p : SimplePoly),
      unary_union polygons = .polygon p →
      compute_polygon_union unary_union polygons = .multiPolygon [p])
    ∧ (∀ (unary_union : List Geom → Geom) (polygons : List Geom)
        (qs : List SimplePoly),
      unary_union polygons = .multiPolygon qs →
      compute_polygon_union unary_union polygons = .multiPolygon qs)
    ∧ (∀ (features : List Feature) (unary_union : List Geom → Geom)
        (d : String) (g : Geom),
      find_poly features unary_union d = .ok g → g.geom_type = "MultiPolygon")
    ∧ (∀ (rows : List CaopRow) (features : List Feature)
        (unary_union : List Geom → Geom) (db db' : Tables),
      populate_localities rows features unary_union db = .ok db' →
      ∀ l ∈ db'.localities, l ∉ db.localities →
      ∀ g, l.polygon = some g → g.geom_type = "MultiPolygon")
    ∧ (∀ (l : LocalityRow) (p : SimplePoly),
      l.polygon = some (.polygon p) →
      (locality_save l).polygon = some (.multiPolygon [p])) := by
  refine ⟨?_, ?_, find_poly_multipolygon, ?_, ?_⟩
  · intro u ps p h
    simp [compute_polygon_union, h]
  · intro u ps qs h
    simp [compute_polygon_union, h]
  · intro rows features u db db' h l hl hnew g hg
    rw [populate_localities] at h
    cases hb : build_localities db features u (caop_clean rows) with
    | error e => rw [hb] at h; exact Except.noConfusion h
    | ok ls =>
      rw [hb] at h
      injection h with h2
      subst h2
      simp only [List.mem_append] at hl
      rcases hl with hl | hl
      · exact absurd hl hnew
      · exact build_localities_multipolygon db features u (caop_clean rows)
          ls hb l hl g hg
  · intro l p h
    simp [locality_save, h]

/-- The geometry file of the C6 instance: one feature carrying a simple
polygon. -/
def c6_features : List Feature :=
  [{ dicofre := "010203", geom := .polygon [{ lon := 1, lat := 1 }] }]

/-- The union operation of the C6 instance: the dissolve of the singleton
input is the polygon itself. -/
def c6_union : List Geom → Geom := fun _ => .polygon [{ lon := 1, lat := 1 }]

/-- Concrete instance of claim C6: find_poly wraps the single polygon into a
one-element multipolygon, whose geom_type is MultiPolygon. -/
theorem claim_C6_witness :
    find_poly c6_features c6_union "010203"
      = .ok (.multiPolygon [[{ lon := 1, lat := 1 }]])
    ∧ Geom.geom_type (.multiPolygon [[{ lon := 1, lat := 1 }]])
      = "MultiPolygon" :=
  ⟨rfl, claim_C6_multipolygon_invariant.2.2.1 c6_features c6_union "010203"
    (.multiPolygon [[{ lon := 1, lat := 1 }]]) rfl⟩

/-- A geocoding source with no data for any code: both fields are NaN
floats, the claim's "source has no latitude/longitude" case. -/
def c4_nan_source : String → GeoResponse := fun _ =>
  { latitude := .float true 0, longitude := .float true 0 }

/-- A geocoding source that knows every code: both fields are ordinary
scalar floats. -/
def c4_data_source : String → GeoResponse := fun _ =>
  { latitude := .float false 41, longitude := .float false (-8) }

/-- CLAIM C4 settled against the code: the chained assignment on base.py
line 61 tuple-unpacks the scalar float `response["longitude"]`, so
coordinates_from_postal_code raises TypeError on every call — both when the
source has no data for the pair 4000-007 (where the claim requires None)
and when it has (where the claim requires a Point). -/
theorem claim_C4_geocoding_glue_raises :
    coordinates_from_postal_code c4_nan_source 4000 7 = .error .typeError
    ∧ coordinates_from_postal_code c4_data_source 4000 7
      = .error .typeError := by
  exact ⟨rfl, rfl⟩

/-- CLAIM C7 settled against the code: CountryStrategy.execute never calls
populate_localities, PortugalStrategy defines create_postal_codes but not
the abstract populate_postal_codes, and therefore the strategy class is not
even instantiable under Python's ABC rules. -/
theorem claim_C7_orchestrator_stages :
    portugal_strategy_instantiable = false
    ∧ "populate_localities" ∉ execute_called_methods
    ∧ "populate_postal_codes" ∉ portugal_strategy_methods
    ∧ "populate_localities" ∈ portugal_strategy_methods := by decide

/-- The county table backing the C8 instance. -/
def c8_county : CountyT :=
  { name := "Porto", district := "Porto", country := "Portugal" }

/-- The persisted tables of the C8 instance: country, district and county
already populated, no localities yet. -/
def c8_db : Tables :=
  { countries := ["Portugal"]
    districts := [{ name := "Porto", country := "Portugal" }]
    counties := [c8_county]
    localities := []
    postal_codes := [] }

/-- The CAOP reference rows of the C8 instance: one region whose code has
no feature in the geometry files. -/
def c8_rows : List CaopRow :=
  [{ distrito := some "Porto"
     freguesia := some "Foz do Douro"
     concelho := some "Porto"
     dicofre := some "131211" }]

/-- The loaded geometry features of the C8 instance: none at all. -/
def c8_features : List Feature := []

/-- The union operation of the C8 instance. -/
def c8_union : List Geom → Geom := fun _ => .geometryCollection []

/-- CLAIM C8 refuted at a concrete input: with a region code absent from
the geometry files, populate_localities does not build the locality with a
null polygon — find_poly's RuntimeError propagates and the whole step
aborts with no locality created. -/
theorem claim_C8_counterexample :
    populate_localities c8_rows c8_features c8_union c8_db
      = .error (.runtimeError
        "[PORTUGAL] Could not find geometries with dicofre 131211") := by
  rfl

theorem find_poly_error_runtime (features : List Feature)
    (unary_union : List Geom → Geom)
    (hu : ∀ gs, (unary_union gs).geom_type = "Polygon"
      ∨ (unary_union gs).geom_type = "MultiPolygon")
    (d : String) (e : PyError)
    (h : find_poly features unary_union d = .error e) :
    e = .runtimeError
      ("[PORTUGAL] Could not find geometries with dicofre " ++ d) := by
  simp only [find_poly] at h
  split at h
  · injection h with h2; exact h2.symm
  · split at h
    · exact Except.noConfusion h
    · exact Except.noConfusion h
    · rename_i heq
      rcases hu ((features.filter (fun f => f.dicofre == d)).map Feature.geom)
        with h1 | h1 <;>
        (rw [heq] at h1; simp [Geom.geom_type] at h1)

theorem build_locality_missing_geometry (db : Tables)
    (features : List Feature) (unary_union : List Geom → Geom)
    (t : String × String × String × String)
    (hcg : ∃ c, county_get db t.2.2.1 t.1 = .ok c)
    (hemp : (features.filter (fun f => f.dicofre == t.2.2.2)).isEmpty = true) :
    build_locality db features unary_union t
      = .error (.runtimeError
        ("[PORTUGAL] Could not find geometries with dicofre " ++ t.2.2.2)) := by
  obtain ⟨d0, f0, c0, di0⟩ := t
  obtain ⟨c, hcg⟩ := hcg
  simp only at hcg hemp
  have hnil : features.filter (fun f => f.dicofre == di0) = [] :=
    List.isEmpty_iff.mp hemp
  simp [build_locality, hcg, find_poly, hnil]

theorem build_localities_missing_geometry (db : Tables)
    (features : List Feature) (unary_union : List Geom → Geom)
    (hu : ∀ gs, (unary_union gs).geom_type = "Polygon"
      ∨ (unary_union gs).geom_type = "MultiPolygon") :
    ∀ ts : List (String × String × String × String),
      (∀ t ∈ ts, ∃ c, county_get db t.2.2.1 t.1 = .ok c) →
      (∃ t ∈ ts, (features.filter (fun f => f.dicofre == t.2.2.2)).isEmpty = true) →
      ∃ d, build_localities db features unary_union ts
        = .error (.runtimeError
          ("[PORTUGAL] Could not find geometries with dicofre " ++ d)) := by
  intro ts
  induction ts with
  | nil =>
    rintro _ ⟨t, ht, _⟩
    exact absurd ht (List.not_mem_nil t)
  | cons t0 ts ih =>
    rintro hcounty ⟨t, ht, hemp⟩
    cases hb : build_locality db features unary_union t0 with
    | error e =>
      obtain ⟨c, hcg⟩ := hcounty t0 (List.mem_cons_self _ _)
      obtain ⟨d0, f0, c0, di0⟩ := t0
      rw [build_locality] at hb
      simp only at hcg
      rw [hcg] at hb
      cases hfp : find_poly features unary_union di0 with
      | error e2 =>
        rw [hfp] at hb
        injection hb with hb2
        subst hb2
        have he := find_poly_error_runtime features unary_union hu di0 e2 hfp
        subst he
        exact ⟨di0, by rw [build_localities, build_locality, hcg, hfp]⟩
      | ok poly => rw [hfp] at hb; exact Except.noConfusion hb
    | ok l0 =>
      rcases List.mem_cons.mp ht with rfl | hmem
      · have hfail := build_locality_missing_geometry db features unary_union
          t ⟨(hcounty t (List.mem_cons_self _ _)).choose,
             (hcounty t (List.mem_cons_self _ _)).choose_spec⟩ hemp
        rw [hfail] at hb
        exact Except.noConfusion hb
      · obtain ⟨d, hd⟩ := ih
          (fun t2 ht2 => hcounty t2 (List.mem_cons_of_mem t0 ht2))
          ⟨t, hmem, hemp⟩
        exact ⟨d, by rw [build_localities, hb, hd]⟩

/-- CLAIM C8 as amended: a region code in the cleaned CAOP table with no
matching feature in the geometry files makes find_poly raise RuntimeError,
which populate_localities does not catch — the hierarchy construction step
aborts with that error (assuming the external union of nonempty polygon
lists is polygonal and the county lookups themselves succeed), instead of
creating a null-polygon locality. -/
theorem claim_C8_missing_geometry_aborts (rows : List CaopRow)
    (features : List Feature) (unary_union : List Geom → Geom) (db : Tables)
    (hu : ∀ gs, (unary_union gs).geom_type = "Polygon"
      ∨ (unary_union gs).geom_type = "MultiPolygon")
    (hcounty : ∀ t ∈ caop_clean rows, ∃ c, county_get db t.2.2.1 t.1 = .ok c)
    (hmiss : ∃ t ∈ caop_clean rows,
      (features.filter (fun f => f.dicofre == t.2.2.2)).isEmpty = true) :
    ∃ d, populate_localities rows features unary_union db
      = .error (.runtimeError
        ("[PORTUGAL] Could not find geometries with dicofre " ++ d)) := by
  obtain ⟨d, hd⟩ := build_localities_missing_geometry db features unary_union
    hu (caop_clean rows) hcounty hmiss
  exact ⟨d, by rw [populate_localities, hd]⟩

/-- The union operation of the C8 amended instance, polygonal on every
input. -/
def c8_union2 : List Geom → Geom := fun _ => .multiPolygon []

/-- Concrete instance of the amended C8: the lone cleaned CAOP row has a
county but no feature, and populate_localities aborts with the RuntimeError
naming its dicofre. -/
theorem claim_C8_witness :
    ∃ d, populate_localities c8_rows c8_features c8_union2 c8_db
      = .error (.runtimeError
        ("[PORTUGAL] Could not find geometries with dicofre " ++ d)) :=
  claim_C8_missing_geometry_aborts c8_rows c8_features c8_union2 c8_db
    (fun _ => Or.inr rfl)
    (fun t ht => by
      have hce : caop_clean c8_rows
          = [("Porto", "Foz do Douro", "Porto", "131211")] := by decide
      rw [hce] at ht
      have ht2 := List.mem_singleton.mp ht
      subst ht2
      exact ⟨c8_county, rfl⟩)
    ⟨("Porto", "Foz do Douro", "Porto", "131211"), by decide, by decide⟩

/-- The persisted tables before the C9 run: Spain already imported (one
district, county, locality and postal code), Portugal's country row also
present. -/
def c9_start : Tables :=
  { countries := ["Spain"]
    districts := [{ name := "Madrid", country := "Spain" }]
    counties := [{ name := "Alcala", district := "Madrid", country := "Spain" }]
    localities := [{ name := "Centro", county := "Alcala", district := "Madrid",
                     country := "Spain", polygon := none }]
    postal_codes := [{ postal_code := 28001, locality := "Centro",
                       country := "Spain" }] }

/-- The state after the first two Portugal stages of the C9 run. -/
def c9_after : Tables :=
  populate_districts ["Lisboa", "Porto"] (populate_country "Portugal" c9_start)

/-- CLAIM C9 refuted at a concrete input: running the Portugal pipeline's
populate_country followed by populate_districts on a database holding
Spain's data deletes Spain's district (with its cascaded county, locality
and postal-code rows), so another country's rows do not survive a run. -/
theorem claim_C9_counterexample :
    ({ name := "Madrid", country := "Spain" } : DistrictT) ∈ c9_start.districts
    ∧ ({ name := "Madrid", country := "Spain" } : DistrictT) ∉ c9_after.districts
    ∧ c9_start.postal_codes ≠ []
    ∧ c9_after.postal_codes = []
    ∧ c9_start.counties ≠ []
    ∧ c9_after.counties = [] := by decide

/-- CLAIM C9 as amended: populate_country is indeed scoped to the named
country (other countries' rows survive it), but PortugalStrategy's
populate_districts then deletes every district row of every country —
cascading away every county, locality and postal-code row — and the raw
postal-code delete in create_postal_codes empties the whole postal-code
table; only other countries' bare country rows survive a run. -/
theorem claim_C9_cross_country_deletion :
    (∀ (cn : String) (db : Tables) (d : DistrictT),
      d ∈ (populate_country cn db).districts ↔ d ∈ db.districts ∧ d.country ≠ cn)
    ∧ (∀ (cn : String) (db : Tables) (p : PostalT),
      p ∈ (populate_country cn db).postal_codes ↔
        p ∈ db.postal_codes ∧ p.country ≠ cn)
    ∧ (∀ (cn c : String) (db : Tables),
      c ∈ (populate_country cn db).countries ↔ (c ∈ db.countries ∧ c ≠ cn) ∨ c = cn)
    ∧ (∀ (names : List String) (db : Tables) (d : DistrictT),
      d ∈ (populate_districts names db).districts → d.country = "Portugal")
    ∧ (∀ (names : List String) (db : Tables),
      (populate_districts names db).counties = []
      ∧ (populate_districts names db).localities = []
      ∧ (populate_districts names db).postal_codes = [])
    ∧ (∀ db : Tables, (delete_all_postal_codes db).postal_codes = []
      ∧ (delete_all_postal_codes db).districts = db.districts
      ∧ (delete_all_postal_codes db).localities = db.localities) := by
  refine ⟨?_, ?_, ?_, ?_, fun names db => ⟨rfl, rfl, rfl⟩,
    fun db => ⟨rfl, rfl, rfl⟩⟩
  · intro cn db d
    simp [populate_country, List.mem_filter, bne_iff_ne]
  · intro cn db p
    simp [populate_country, List.mem_filter, bne_iff_ne]
  · intro cn c db
    simp [populate_country, List.mem_filter, bne_iff_ne]
  · intro names db d h
    simp only [populate_districts, List.mem_map] at h
    obtain ⟨n, _, rfl⟩ := h
    rfl

end DjangoPostalCodes
